import Mathlib

/-!
# CharacterShow: filter, search and pagination state

A shallow embedding of `src/components/Charactes/CharacterShow.jsx`.

* A JavaScript string is its sequence of UTF-16 code units (`JSString`).
  `===` on strings is equality of these sequences, `String.prototype.includes`
  is contiguous occurrence, and a string is truthy exactly when it is
  non-empty.
* `String.prototype.toLowerCase` is a host built-in (full Unicode case
  mapping); every definition that calls it takes it as the parameter `lower`.
* The component's eight `useState` cells are the fields of `State`.  Event
  handlers are functions on `State`; `step` adds the `useEffect` bodies React
  runs after a handler changed one of their dependencies.
* Page numbers are integers (`Int`); the response's `info.pages` is whatever
  integer the API sends.
-/

namespace CharacterShow

/-- A JavaScript string as its sequence of UTF-16 code units. -/
abbrev JSString := List Nat

/-- Code units of a (Basic Multilingual Plane) literal of the source. -/
def str (s : String) : JSString := s.toList.map Char.toNat

/-- The literal `'Alive'` of line 55. -/
def Alive : JSString := str "Alive"

/-- `s.includes(t)`: `t` occurs in `s` as a contiguous run of code units
(the empty string occurs in every string). -/
def includes : JSString → JSString → Bool
  | [], t => t.isEmpty
  | c :: s, t => t.isPrefixOf (c :: s) || includes s t

/-- Truthiness of a string value: `!!value`, `if (value)`. -/
def truthy (v : JSString) : Bool := !v.isEmpty

/-- `toLowerCase` restricted to the ASCII letters, the part of the built-in
the examples below need: `A`..`Z` map to `a`..`z`, every other code unit of
an ASCII string is kept. -/
def asciiLower (s : JSString) : JSString :=
  s.map (fun u => if 65 ≤ u ∧ u ≤ 90 then u + 32 else u)

/-- A character record of the API; the component reads these five fields. -/
structure Character where
  id : Nat
  name : JSString
  status : JSString
  species : JSString
  image : JSString
deriving DecidableEq, Repr

/-- The `filterOptions` object of lines 17-20. -/
structure FilterOptions where
  aliveOnly : Bool
  species : JSString
deriving DecidableEq, Repr

/-- The list `applyFilters` (lines 49-63) hands to `setFilteredCharacters`,
as a function of the three state cells it reads. -/
def applyFilters (lower : JSString → JSString) (characters : List Character)
    (searchTerm : JSString) (filterOptions : FilterOptions) : List Character :=
  let filtered := characters.filter (fun character =>
    includes (lower character.name) (lower searchTerm))
  let filtered :=
    if filterOptions.aliveOnly then
      filtered.filter (fun character => character.status == Alive)
    else filtered
  let filtered :=
    if truthy filterOptions.species then
      filtered.filter (fun character => character.species == filterOptions.species)
    else filtered
  filtered

/-- The name-search stage of `applyFilters` (lines 50-52) on its own. -/
def searchStage (lower : JSString → JSString) (searchTerm : JSString)
    (l : List Character) : List Character :=
  l.filter (fun character => includes (lower character.name) (lower searchTerm))

/-- The alive-only stage of `applyFilters` (lines 54-56) on its own. -/
def aliveStage (filterOptions : FilterOptions) (l : List Character) : List Character :=
  if filterOptions.aliveOnly then
    l.filter (fun character => character.status == Alive)
  else l

/-- The species stage of `applyFilters` (lines 58-60) on its own. -/
def speciesStage (filterOptions : FilterOptions) (l : List Character) : List Character :=
  if truthy filterOptions.species then
    l.filter (fun character => character.species == filterOptions.species)
  else l

/-- The membership condition of the filter as the specification words it:
the lower-cased name contains the lower-cased search text, the status is
`Alive` when only alive entities are wanted, and the species is the chosen
one when a species is chosen. -/
def Keeps (lower : JSString → JSString) (s : JSString) (aliveOnly : Bool)
    (sp : JSString) (c : Character) : Prop :=
  (∃ pre post, pre ++ lower s ++ post = lower c.name) ∧
  (aliveOnly = false ∨ c.status = Alive) ∧
  (sp = [] ∨ c.species = sp)

instance (lower : JSString → JSString) (s : JSString) (aliveOnly : Bool)
    (sp : JSString) (c : Character) : Decidable (Keeps lower s aliveOnly sp c) :=
  inferInstanceAs (Decidable (lower s <:+: lower c.name ∧
    (aliveOnly = false ∨ c.status = Alive) ∧ (sp = [] ∨ c.species = sp)))

/-- Rick Sanchez of scenario A. -/
def rick : Character :=
  { id := 1, name := str "Rick Sanchez", status := Alive,
    species := str "Human", image := [] }

/-- Morty Smith of scenario A. -/
def morty : Character :=
  { id := 2, name := str "Morty Smith", status := str "Dead",
    species := str "Human", image := [] }

/-- The eight `useState` cells of the component (lines 10-20). -/
structure State where
  characters : List Character
  isLoading : Bool
  searchTerm : JSString
  filteredCharacters : List Character
  currentPage : Int
  totalPages : Int
  showDropdown : Bool
  filterOptions : FilterOptions
deriving DecidableEq, Repr

/-- The initial values of the state cells (lines 10-20).  The effects of the
first render leave them as they are: `fetchData` sets `isLoading` to `true`
and `applyFilters` stores the filter of the empty list. -/
def initialState : State :=
  { characters := []
    isLoading := true
    searchTerm := []
    filteredCharacters := []
    currentPage := 1
    totalPages := 1
    showDropdown := false
    filterOptions := { aliveOnly := false, species := [] } }

/-- The effect of lines 45-47: `applyFilters()` stores the filtered list. -/
def applyFiltersEffect (lower : JSString → JSString) (s : State) : State :=
  { s with filteredCharacters :=
      applyFilters lower s.characters s.searchTerm s.filterOptions }

/-- The part of `fetchData` before the request is awaited (line 29). -/
def fetchDataStart (s : State) : State :=
  { s with isLoading := true }

/-- The part of `fetchData` after the request resolved with
`response.data.results = data` and `response.data.info.pages = pages`
(lines 31-34, then `finally`, line 38). -/
def fetchDataSuccess (data : List Character) (pages : Int) (s : State) : State :=
  { s with characters := data
           filteredCharacters := data
           totalPages := pages
           isLoading := false }

/-- The part of `fetchData` after the request was rejected: `catch` logs
(line 36), `finally` clears the loading flag (line 38). -/
def fetchDataFailure (s : State) : State :=
  { s with isLoading := false }

/-- The handler `handleSearch` (lines 65-69); `value` is `e.target.value`. -/
def handleSearch (value : JSString) (s : State) : State :=
  { s with searchTerm := value, showDropdown := truthy value }

/-- The two calls of `handleFilterChange` in the markup (lines 109, 117):
the key that is written and its new value. -/
inductive FilterChange where
  | aliveOnly (checked : Bool)
  | species (value : JSString)
deriving DecidableEq, Repr

/-- The handler `handleFilterChange` (lines 71-73): the other key is
copied by the spread. -/
def handleFilterChange (change : FilterChange) (s : State) : State :=
  match change with
  | .aliveOnly checked =>
      { s with filterOptions := { s.filterOptions with aliveOnly := checked } }
  | .species value =>
      { s with filterOptions := { s.filterOptions with species := value } }

/-- The handler `handleNextPage` (lines 75-79). -/
def handleNextPage (s : State) : State :=
  if s.currentPage < s.totalPages then
    { s with currentPage := s.currentPage + 1 }
  else s

/-- The handler `handlePrevPage` (lines 81-85). -/
def handlePrevPage (s : State) : State :=
  if s.currentPage > 1 then
    { s with currentPage := s.currentPage - 1 }
  else s

/-- The `disabled` prop of the Prev button (line 164). -/
def prevDisabled (s : State) : Bool := s.currentPage == 1

/-- The `disabled` prop of the Next button (line 171). -/
def nextDisabled (s : State) : Bool := s.currentPage == s.totalPages

/-- The guard of the suggestion panel (line 133). -/
def panelShown (s : State) : Bool := s.showDropdown

/-- The grid of lines 152-160 as rendered from a state: the placeholder
(`none`) while `isLoading`, else one card per entry of `filteredCharacters`,
in order. -/
def gridShown (s : State) : Option (List Character) :=
  if s.isLoading then none else some s.filteredCharacters

/-- What can happen to the mounted component: a click on Next or Prev, an
input in the search box, a change of a filter control, and the settling of
a request that `fetchData` issued. -/
inductive Event where
  | next
  | prev
  | search (value : JSString)
  | filterChange (change : FilterChange)
  | fetchSuccess (data : List Character) (pages : Int)
  | fetchFailure
deriving DecidableEq, Repr

/-- The effect of lines 26-43 after a handler ran in state `old` and left
`new`: when `currentPage` changed, `fetchData` starts. -/
def pageEffect (old new : State) : State :=
  if new.currentPage ≠ old.currentPage then fetchDataStart new else new

/-- One event, handler and effects: the state once the effects the event
triggers have run.  The effect of lines 45-47 runs when one of `characters`,
`filterOptions`, `searchTerm` changed: a resolved request stores a fresh
array and `handleFilterChange` a fresh object, so it runs after both;
`searchTerm` is a string and is compared by value.  An effect runs after the
render of the state the handler left, so for a resolved request the state
`fetchDataSuccess` is rendered before the effect's state is. -/
def step (lower : JSString → JSString) (s : State) : Event → State
  | .next => pageEffect s (handleNextPage s)
  | .prev => pageEffect s (handlePrevPage s)
  | .search value =>
      if value ≠ s.searchTerm then applyFiltersEffect lower (handleSearch value s)
      else handleSearch value s
  | .filterChange change => applyFiltersEffect lower (handleFilterChange change s)
  | .fetchSuccess data pages => applyFiltersEffect lower (fetchDataSuccess data pages s)
  | .fetchFailure => fetchDataFailure s

/-- The state after a sequence of events, oldest first. -/
def run (lower : JSString → JSString) (s : State) (events : List Event) : State :=
  events.foldl (step lower) s

/-- Requests in flight after a sequence of events, from `pending` in flight
at its start: a page change issues one, a settled request ends one.  `none`
when the sequence settles a request that was never issued. -/
def inFlight (lower : JSString → JSString) : State → Nat → List Event → Option Nat
  | _, pending, [] => some pending
  | s, pending, e :: events =>
      match e with
      | .fetchSuccess _ _ | .fetchFailure =>
          if pending = 0 then none
          else inFlight lower (step lower s e) (pending - 1) events
      | _ =>
          inFlight lower (step lower s e)
            (if (step lower s e).currentPage ≠ s.currentPage then pending + 1 else pending)
            events

/-- Every resolved request of the sequence reports at least as many pages
as the page index the component is on when the response arrives. -/
def pagesCoverIndex (lower : JSString → JSString) : State → List Event → Bool
  | _, [] => true
  | s, e :: events =>
      (match e with
       | .fetchSuccess _ pages => decide (s.currentPage ≤ pages)
       | _ => true) && pagesCoverIndex lower (step lower s e) events

/-- The page invariant of the data model: `1 ≤ currentPage ≤ totalPages`. -/
def PageInvariant (s : State) : Prop :=
  1 ≤ s.currentPage ∧ s.currentPage ≤ s.totalPages

/-- A state in the middle of the page range: page 2 of 3. -/
def midState : State :=
  { initialState with currentPage := 2, totalPages := 3, isLoading := false }

/-- Three events after mounting: the first page arrives and reports two
pages, Next is clicked, the second page arrives and reports one page. -/
def shrinkingTrace : List Event :=
  [.fetchSuccess [rick, morty] 2, .next, .fetchSuccess [rick] 1]

/-- The first page has arrived, `rick` was typed into the search box and
Next was clicked: page 2 of 42 is requested, the search text is `rick`. -/
def searchingState : State :=
  run asciiLower initialState
    [.fetchSuccess [rick, morty] 42, .search (str "rick"), .next]

/-- A session in which every response reports 42 pages. -/
def steadyTrace : List Event :=
  [.fetchSuccess [rick, morty] 42, .search (str "r"), .next, .fetchSuccess [morty] 42,
   .filterChange (.aliveOnly true), .prev, .fetchFailure]

/-! ## Strings -/

theorem includes_iff (s t : JSString) :
    includes s t = true ↔ ∃ pre post, pre ++ t ++ post = s := by
  induction s with
  | nil =>
    cases t with
    | nil => simp [includes]
    | cons a t => simp [includes]
  | cons c s ih =>
    rw [includes, Bool.or_eq_true, ih, List.isPrefixOf_iff_prefix]
    constructor
    · rintro (⟨post, h⟩ | ⟨pre, post, h⟩)
      · exact ⟨[], post, by simpa using h⟩
      · exact ⟨c :: pre, post, by simp [← h]⟩
    · rintro ⟨pre, post, h⟩
      cases pre with
      | nil => exact Or.inl ⟨post, by simpa using h⟩
      | cons a pre =>
        simp only [List.cons_append, List.cons.injEq] at h
        exact Or.inr ⟨pre, post, h.2⟩

theorem includes_nil (s : JSString) : includes s [] = true :=
  (includes_iff s []).2 ⟨[], s, rfl⟩

theorem truthy_eq_false_iff (v : JSString) : truthy v = false ↔ v = [] := by
  cases v <;> simp [truthy]

/-! ## The filter -/

/-- The three stages of `applyFilters` are one filter by a conjunction. -/
theorem applyFilters_eq_filter (lower : JSString → JSString) (E : List Character)
    (s : JSString) (fo : FilterOptions) :
    applyFilters lower E s fo =
      E.filter (fun c => includes (lower c.name) (lower s) &&
        ((!fo.aliveOnly || c.status == Alive) &&
          (!truthy fo.species || c.species == fo.species))) := by
  unfold applyFilters
  cases fo.aliveOnly <;> cases truthy fo.species <;>
    simp [List.filter_filter, Bool.and_comm, Bool.and_assoc, Bool.and_left_comm]

theorem applyFilters_eq_stages (lower : JSString → JSString) (E : List Character)
    (s : JSString) (fo : FilterOptions) :
    applyFilters lower E s fo = speciesStage fo (aliveStage fo (searchStage lower s E)) :=
  rfl

theorem aliveStage_eq_filter (fo : FilterOptions) (l : List Character) :
    aliveStage fo l = l.filter (fun c => !fo.aliveOnly || c.status == Alive) := by
  unfold aliveStage
  cases fo.aliveOnly <;> simp

theorem speciesStage_eq_filter (fo : FilterOptions) (l : List Character) :
    speciesStage fo l = l.filter (fun c => !truthy fo.species || c.species == fo.species) := by
  unfold speciesStage
  cases truthy fo.species <;> simp

/-- C1. The list `applyFilters` computes from `(E, s, aliveOnly, sp)` is the
filter of `E`, in `E`'s order, by: the lower-cased name contains the
lower-cased `s`, and `aliveOnly` is false or the status is `Alive`, and `sp`
is empty or the species is `sp`.  With `s` empty, `aliveOnly` false and `sp`
empty the result is `E` (the built-in lower-cases the empty string to
itself). -/
theorem applyFilters_spec (lower : JSString → JSString) (E : List Character)
    (s : JSString) (aliveOnly : Bool) (sp : JSString) :
    applyFilters lower E s ⟨aliveOnly, sp⟩ =
        E.filter (fun c => decide (Keeps lower s aliveOnly sp c)) ∧
      (lower [] = [] → applyFilters lower E [] ⟨false, []⟩ = E) := by
  constructor
  · rw [applyFilters_eq_filter]
    apply List.filter_congr
    intro c _
    rw [Bool.eq_iff_iff]
    simp only [Bool.and_eq_true, Bool.or_eq_true, Bool.not_eq_true', beq_iff_eq,
      decide_eq_true_eq, Keeps, includes_iff, truthy_eq_false_iff]
  · intro h
    rw [applyFilters_eq_filter, List.filter_eq_self]
    intro c _
    simp [h, includes_nil, truthy]

/-- C1 on the two entities of scenario A, with the ASCII lower-casing. -/
theorem applyFilters_spec_witness :
    asciiLower [] = [] ∧
      applyFilters asciiLower [rick, morty] (str "rick") ⟨true, str "Human"⟩ =
        [rick, morty].filter
          (fun c => decide (Keeps asciiLower (str "rick") true (str "Human") c)) ∧
      applyFilters asciiLower [rick, morty] [] ⟨false, []⟩ = [rick, morty] :=
  ⟨by decide,
   (applyFilters_spec asciiLower [rick, morty] (str "rick") true (str "Human")).1,
   (applyFilters_spec asciiLower [rick, morty] (str "rick") true (str "Human")).2
     (by decide)⟩

/-- C2. The result of `applyFilters` is a sublist of the entity list: its
elements are elements of `E`, in the same relative order and with no greater
multiplicity. -/
theorem applyFilters_sublist (lower : JSString → JSString) (E : List Character)
    (s : JSString) (fo : FilterOptions) :
    (applyFilters lower E s fo).Sublist E ∧
      (∀ c, c ∈ applyFilters lower E s fo → c ∈ E) ∧
      (∀ c, (applyFilters lower E s fo).count c ≤ E.count c) := by
  have h : (applyFilters lower E s fo).Sublist E := by
    rw [applyFilters_eq_filter]
    exact List.filter_sublist E
  exact ⟨h, fun c hc => h.subset hc, fun c => h.count_le c⟩

/-- C2 on the two entities of scenario A with the search text `rick`. -/
theorem applyFilters_sublist_witness :
    rick ∈ applyFilters asciiLower [rick, morty] (str "rick") ⟨false, []⟩ ∧
      rick ∈ [rick, morty] :=
  ⟨by decide,
   (applyFilters_sublist asciiLower [rick, morty] (str "rick") ⟨false, []⟩).2.1 rick
     (by decide)⟩

/-- C3. Filtering twice with the same filter state gives the same list as
filtering once. -/
theorem applyFilters_idempotent (lower : JSString → JSString) (E : List Character)
    (s : JSString) (fo : FilterOptions) :
    applyFilters lower (applyFilters lower E s fo) s fo = applyFilters lower E s fo := by
  rw [applyFilters_eq_filter lower (applyFilters lower E s fo), applyFilters_eq_filter,
    List.filter_filter]
  apply List.filter_congr
  intro c _
  simp

/-- C10. The three stages (name search, alive-only, species) applied in any
of their six orders give the list `applyFilters` computes. -/
theorem applyFilters_stage_order (lower : JSString → JSString) (E : List Character)
    (s : JSString) (fo : FilterOptions) :
    speciesStage fo (aliveStage fo (searchStage lower s E)) = applyFilters lower E s fo ∧
      aliveStage fo (speciesStage fo (searchStage lower s E)) = applyFilters lower E s fo ∧
      speciesStage fo (searchStage lower s (aliveStage fo E)) = applyFilters lower E s fo ∧
      searchStage lower s (speciesStage fo (aliveStage fo E)) = applyFilters lower E s fo ∧
      aliveStage fo (searchStage lower s (speciesStage fo E)) = applyFilters lower E s fo ∧
      searchStage lower s (aliveStage fo (speciesStage fo E)) = applyFilters lower E s fo := by
  have key : ∀ p q : Character → Bool, (∀ c, (p c = true ↔ q c = true)) →
      E.filter p = E.filter q := by
    intro p q h
    apply List.filter_congr
    intro c _
    rw [Bool.eq_iff_iff]
    exact h c
  refine ⟨?_, ?_, ?_, ?_, ?_, ?_⟩ <;>
    simp only [applyFilters_eq_filter, aliveStage_eq_filter, speciesStage_eq_filter,
      searchStage, List.filter_filter] <;>
    (refine key _ _ ?_; intro c; simp only [Bool.and_eq_true]; tauto)

/-! ## Handlers and effects -/

theorem handleNextPage_eq_self_iff (s : State) :
    handleNextPage s = s ↔ ¬ s.currentPage < s.totalPages := by
  unfold handleNextPage
  constructor
  · intro h hlt
    rw [if_pos hlt] at h
    have := congrArg State.currentPage h
    simp at this
  · intro h
    rw [if_neg h]

theorem handlePrevPage_eq_self_iff (s : State) :
    handlePrevPage s = s ↔ ¬ s.currentPage > 1 := by
  unfold handlePrevPage
  constructor
  · intro h hgt
    rw [if_pos hgt] at h
    have := congrArg State.currentPage h
    simp at this
  · intro h
    rw [if_neg h]

theorem step_next_pages (lower : JSString → JSString) (s : State) :
    (step lower s .next).currentPage =
        (if s.currentPage < s.totalPages then s.currentPage + 1 else s.currentPage) ∧
      (step lower s .next).totalPages = s.totalPages := by
  by_cases h : s.currentPage < s.totalPages <;>
    simp [step, pageEffect, handleNextPage, fetchDataStart, h]

theorem step_prev_pages (lower : JSString → JSString) (s : State) :
    (step lower s .prev).currentPage =
        (if s.currentPage > 1 then s.currentPage - 1 else s.currentPage) ∧
      (step lower s .prev).totalPages = s.totalPages := by
  by_cases h : s.currentPage > 1 <;>
    simp [step, pageEffect, handlePrevPage, fetchDataStart, h]

theorem step_search_pages (lower : JSString → JSString) (s : State) (value : JSString) :
    (step lower s (.search value)).currentPage = s.currentPage ∧
      (step lower s (.search value)).totalPages = s.totalPages := by
  by_cases h : value = s.searchTerm <;>
    simp [step, handleSearch, applyFiltersEffect, h]

theorem step_currentPage_pos (lower : JSString → JSString) (s : State) (e : Event)
    (h : 1 ≤ s.currentPage) : 1 ≤ (step lower s e).currentPage := by
  cases e with
  | fetchSuccess data pages => exact h
  | fetchFailure => exact h
  | filterChange change => cases change <;> exact h
  | search value => rw [(step_search_pages lower s value).1]; exact h
  | next => rw [(step_next_pages lower s).1]; split <;> omega
  | prev => rw [(step_prev_pages lower s).1]; split <;> omega

theorem step_pageInvariant (lower : JSString → JSString) (s : State) (e : Event)
    (h : PageInvariant s)
    (hcover : ∀ data pages, e = .fetchSuccess data pages → s.currentPage ≤ pages) :
    PageInvariant (step lower s e) := by
  obtain ⟨h1, h2⟩ := h
  cases e with
  | fetchSuccess data pages => exact ⟨h1, hcover data pages rfl⟩
  | fetchFailure => exact ⟨h1, h2⟩
  | filterChange change => cases change <;> exact ⟨h1, h2⟩
  | search value =>
    unfold PageInvariant
    rw [(step_search_pages lower s value).1, (step_search_pages lower s value).2]
    exact ⟨h1, h2⟩
  | next =>
    unfold PageInvariant
    rw [(step_next_pages lower s).1, (step_next_pages lower s).2]
    split <;> omega
  | prev =>
    unfold PageInvariant
    rw [(step_prev_pages lower s).1, (step_prev_pages lower s).2]
    split <;> omega

theorem run_cons (lower : JSString → JSString) (s : State) (e : Event)
    (events : List Event) :
    run lower s (e :: events) = run lower (step lower s e) events :=
  rfl

theorem run_currentPage_pos (lower : JSString → JSString) (events : List Event) :
    ∀ s : State, 1 ≤ s.currentPage → 1 ≤ (run lower s events).currentPage := by
  induction events with
  | nil => intro s h; exact h
  | cons e events ih =>
    intro s h
    rw [run_cons]
    exact ih _ (step_currentPage_pos lower s e h)

theorem run_pageInvariant (lower : JSString → JSString) (events : List Event) :
    ∀ s : State, PageInvariant s → pagesCoverIndex lower s events = true →
      PageInvariant (run lower s events) := by
  induction events with
  | nil => intro s h _; exact h
  | cons e events ih =>
    intro s h hc
    have hc' : (∀ data pages, e = .fetchSuccess data pages → s.currentPage ≤ pages) ∧
        pagesCoverIndex lower (step lower s e) events = true := by
      cases e <;> simpa [pagesCoverIndex] using hc
    rw [run_cons]
    exact ih _ (step_pageInvariant lower s e h hc'.1) hc'.2

/-! ## Pagination -/

/-- C4. `handleNextPage` sets the page index to `p + 1` if `p < t` and
otherwise leaves the whole state unchanged (so at `p = t`); `handlePrevPage`
sets it to `p - 1` if `p > 1` and otherwise leaves the whole state unchanged
(so at `p = 1`).  Neither the handlers nor the effect they trigger change the
total page count, the entities, the visible list or the filter state. -/
theorem handleNextPage_handlePrevPage_spec (lower : JSString → JSString) (s : State) :
    (s.currentPage < s.totalPages →
        handleNextPage s = { s with currentPage := s.currentPage + 1 }) ∧
      (¬ s.currentPage < s.totalPages → handleNextPage s = s ∧ step lower s .next = s) ∧
      (s.currentPage = s.totalPages → handleNextPage s = s ∧ step lower s .next = s) ∧
      (s.currentPage > 1 →
        handlePrevPage s = { s with currentPage := s.currentPage - 1 }) ∧
      (¬ s.currentPage > 1 → handlePrevPage s = s ∧ step lower s .prev = s) ∧
      (s.currentPage = 1 → handlePrevPage s = s ∧ step lower s .prev = s) ∧
      (∀ s' : State,
        s' = handleNextPage s ∨ s' = handlePrevPage s ∨ s' = step lower s .next ∨
          s' = step lower s .prev →
        s'.totalPages = s.totalPages ∧ s'.characters = s.characters ∧
          s'.filteredCharacters = s.filteredCharacters ∧
          s'.searchTerm = s.searchTerm ∧ s'.filterOptions = s.filterOptions ∧
          s'.showDropdown = s.showDropdown) := by
  have hn : ¬ s.currentPage < s.totalPages → handleNextPage s = s ∧ step lower s .next = s := by
    intro h
    have : handleNextPage s = s := (handleNextPage_eq_self_iff s).2 h
    simp [step, pageEffect, this]
  have hp : ¬ s.currentPage > 1 → handlePrevPage s = s ∧ step lower s .prev = s := by
    intro h
    have : handlePrevPage s = s := (handlePrevPage_eq_self_iff s).2 h
    simp [step, pageEffect, this]
  refine ⟨?_, hn, ?_, ?_, hp, ?_, ?_⟩
  · intro h
    simp [handleNextPage, h]
  · intro h
    exact hn (by omega)
  · intro h
    simp [handlePrevPage, h]
  · intro h
    exact hp (by omega)
  · rintro s' (h | h | h | h) <;> subst h
    · by_cases h : s.currentPage < s.totalPages <;> simp [handleNextPage, h]
    · by_cases h : s.currentPage > 1 <;> simp [handlePrevPage, h]
    · by_cases h : s.currentPage < s.totalPages <;>
        simp [step, pageEffect, handleNextPage, fetchDataStart, h]
    · by_cases h : s.currentPage > 1 <;>
        simp [step, pageEffect, handlePrevPage, fetchDataStart, h]

/-- C4 at page 2 of 3, where both handlers move, and at page 1 of 1, where
neither does. -/
theorem handleNextPage_handlePrevPage_spec_witness :
    ((2 : Int) < 3 ∧ handleNextPage midState = { midState with currentPage := 3 }) ∧
      ((2 : Int) > 1 ∧ handlePrevPage midState = { midState with currentPage := 1 }) ∧
      (¬ (1 : Int) < 1 ∧ handleNextPage initialState = initialState) ∧
      (¬ (1 : Int) > 1 ∧ handlePrevPage initialState = initialState) ∧
      (initialState.currentPage = initialState.totalPages ∧
        step asciiLower initialState .next = initialState) ∧
      (initialState.currentPage = 1 ∧ step asciiLower initialState .prev = initialState) ∧
      (step asciiLower midState .next).totalPages = 3 :=
  ⟨⟨by decide, (handleNextPage_handlePrevPage_spec asciiLower midState).1 (by decide)⟩,
   ⟨by decide, (handleNextPage_handlePrevPage_spec asciiLower midState).2.2.2.1 (by decide)⟩,
   ⟨by decide,
    ((handleNextPage_handlePrevPage_spec asciiLower initialState).2.1 (by decide)).1⟩,
   ⟨by decide,
    ((handleNextPage_handlePrevPage_spec asciiLower initialState).2.2.2.2.1 (by decide)).1⟩,
   ⟨rfl, ((handleNextPage_handlePrevPage_spec asciiLower initialState).2.2.1 rfl).2⟩,
   ⟨rfl, ((handleNextPage_handlePrevPage_spec asciiLower initialState).2.2.2.2.2.1 rfl).2⟩,
   ((handleNextPage_handlePrevPage_spec asciiLower midState).2.2.2.2.2.2 _
     (Or.inr (Or.inr (Or.inl rfl)))).1⟩

/-- C5, as stated, fails: after the first page arrived with two pages, Next
was clicked and the second page arrived with one page, the component is on
page 2 of 1.  Every response of the sequence answers a request that was
issued before it, the first one the request of the first render. -/
theorem pageInvariant_counterexample :
    inFlight asciiLower initialState 1 shrinkingTrace = some 0 ∧
      Event.fetchSuccess [rick, morty] 2 ∈ shrinkingTrace ∧
      (run asciiLower initialState shrinkingTrace).currentPage = 2 ∧
      (run asciiLower initialState shrinkingTrace).totalPages = 1 ∧
      ¬ PageInvariant (run asciiLower initialState shrinkingTrace) := by
  refine ⟨by decide, by decide, by decide, by decide, ?_⟩
  intro h
  have h2 := h.2
  revert h2
  decide

/-- C5, amended. In every state reachable from the initial state the page
index is at least 1; and when every resolved request of the sequence reports
at least as many pages as the page index at its arrival, the page index is
at most the total page count as well. -/
theorem pageInvariant_reachable (lower : JSString → JSString) (events : List Event) :
    1 ≤ (run lower initialState events).currentPage ∧
      (pagesCoverIndex lower initialState events = true →
        PageInvariant (run lower initialState events)) :=
  ⟨run_currentPage_pos lower events initialState (by decide),
   run_pageInvariant lower events initialState ⟨by decide, by decide⟩⟩

/-- C5, amended, on a session whose responses all report 42 pages. -/
theorem pageInvariant_reachable_witness :
    pagesCoverIndex asciiLower initialState steadyTrace = true ∧
      PageInvariant (run asciiLower initialState steadyTrace) :=
  ⟨by decide, (pageInvariant_reachable asciiLower steadyTrace).2 (by decide)⟩

/-- C6, as stated, fails: on page 2 of 1 (the state `shrinkingTrace` leads
to) the Next control is enabled although `handleNextPage` does nothing.
Likewise on a page index below 1, a state no event sequence reaches, the
Prev control is enabled although `handlePrevPage` does nothing. -/
theorem disabled_iff_noop_counterexample :
    nextDisabled (run asciiLower initialState shrinkingTrace) = false ∧
      handleNextPage (run asciiLower initialState shrinkingTrace) =
        run asciiLower initialState shrinkingTrace ∧
      ¬ (nextDisabled (run asciiLower initialState shrinkingTrace) = true ↔
          handleNextPage (run asciiLower initialState shrinkingTrace) =
            run asciiLower initialState shrinkingTrace) ∧
      ¬ (prevDisabled { initialState with currentPage := 0 } = true ↔
          handlePrevPage { initialState with currentPage := 0 } =
            { initialState with currentPage := 0 }) := by
  have h1 : nextDisabled (run asciiLower initialState shrinkingTrace) = false := by decide
  have h2 : handleNextPage (run asciiLower initialState shrinkingTrace) =
      run asciiLower initialState shrinkingTrace := by decide
  refine ⟨h1, h2, ?_, ?_⟩
  · intro h
    rw [h1] at h
    exact Bool.false_ne_true (h.2 h2)
  · intro h
    have : prevDisabled { initialState with currentPage := 0 } = true := h.2 (by decide)
    revert this
    decide

/-- C6, amended. In every state with `1 ≤ p` the Prev control is disabled
if and only if `handlePrevPage` is a no-op, and in every state with `p ≤ t`
the Next control is disabled if and only if `handleNextPage` is a no-op; at
`p = 1` and `t = 1` both controls are disabled. -/
theorem disabled_iff_noop (s : State) :
    (1 ≤ s.currentPage → (prevDisabled s = true ↔ handlePrevPage s = s)) ∧
      (s.currentPage ≤ s.totalPages → (nextDisabled s = true ↔ handleNextPage s = s)) ∧
      (s.currentPage = 1 → s.totalPages = 1 →
        prevDisabled s = true ∧ nextDisabled s = true) := by
  refine ⟨?_, ?_, ?_⟩
  · intro h
    rw [handlePrevPage_eq_self_iff, prevDisabled, beq_iff_eq]
    omega
  · intro h
    rw [handleNextPage_eq_self_iff, nextDisabled, beq_iff_eq]
    omega
  · intro hp ht
    simp [prevDisabled, nextDisabled, hp, ht]

/-- C6, amended, at page 1 of 1 and at page 2 of 3. -/
theorem disabled_iff_noop_witness :
    ((1 : Int) ≤ 1 ∧ (prevDisabled initialState = true ↔
        handlePrevPage initialState = initialState)) ∧
      ((2 : Int) ≤ 3 ∧ (nextDisabled midState = true ↔ handleNextPage midState = midState)) ∧
      (prevDisabled initialState = true ∧ nextDisabled initialState = true) :=
  ⟨⟨by decide, (disabled_iff_noop initialState).1 (by decide)⟩,
   ⟨by decide, (disabled_iff_noop midState).2.1 (by decide)⟩,
   (disabled_iff_noop initialState).2.2 rfl rfl⟩

/-! ## Suggestion panel -/

theorem step_showDropdown (lower : JSString → JSString) (s : State) (e : Event)
    (h : s.showDropdown = true ↔ s.searchTerm ≠ []) :
    (step lower s e).showDropdown = true ↔ (step lower s e).searchTerm ≠ [] := by
  cases e with
  | search value =>
    by_cases hv : value = s.searchTerm <;> cases value <;>
      simp [step, applyFiltersEffect, handleSearch, truthy, hv]
  | filterChange change => cases change <;> exact h
  | fetchSuccess data pages => exact h
  | fetchFailure => exact h
  | next =>
    by_cases hp : s.currentPage < s.totalPages <;>
      simpa [step, pageEffect, handleNextPage, fetchDataStart, hp] using h
  | prev =>
    by_cases hp : s.currentPage > 1 <;>
      simpa [step, pageEffect, handlePrevPage, fetchDataStart, hp] using h

theorem run_showDropdown (lower : JSString → JSString) (events : List Event) :
    ∀ s : State, (s.showDropdown = true ↔ s.searchTerm ≠ []) →
      ((run lower s events).showDropdown = true ↔ (run lower s events).searchTerm ≠ []) := by
  induction events with
  | nil => intro s h; exact h
  | cons e events ih =>
    intro s h
    rw [run_cons]
    exact ih _ (step_showDropdown lower s e h)

/-- C7. In every state reachable from the initial state the suggestion
panel is shown if and only if the search text is non-empty; an input of the
empty string hides the panel from any state, whatever its loading flag and
panel flag were. -/
theorem panelShown_iff_searchTerm (lower : JSString → JSString) (events : List Event) :
    (panelShown (run lower initialState events) = true ↔
        (run lower initialState events).searchTerm ≠ []) ∧
      (∀ s : State, panelShown (step lower s (.search [])) = false ∧
        (step lower s (.search [])).searchTerm = []) := by
  refine ⟨run_showDropdown lower events initialState (by decide), ?_⟩
  intro s
  by_cases hv : [] = s.searchTerm <;>
    simp [panelShown, step, applyFiltersEffect, handleSearch, truthy, hv]

/-! ## Fetching -/

/-- C8. A fetch that fails ends in a state whose entities, visible list,
total page count, page index and filter state are those before the fetch
started and whose loading flag is false (whether the failure is taken from
the state the fetch started in or from any later state); a fetch that
succeeds ends with the loading flag false as well. -/
theorem fetch_failure_frame (lower : JSString → JSString) (s : State)
    (data : List Character) (pages : Int) :
    step lower (fetchDataStart s) .fetchFailure = { s with isLoading := false } ∧
      (step lower (fetchDataStart s) .fetchFailure).characters = s.characters ∧
      (step lower (fetchDataStart s) .fetchFailure).filteredCharacters =
        s.filteredCharacters ∧
      (step lower (fetchDataStart s) .fetchFailure).totalPages = s.totalPages ∧
      (step lower (fetchDataStart s) .fetchFailure).currentPage = s.currentPage ∧
      (step lower (fetchDataStart s) .fetchFailure).searchTerm = s.searchTerm ∧
      (step lower (fetchDataStart s) .fetchFailure).filterOptions = s.filterOptions ∧
      (step lower (fetchDataStart s) .fetchFailure).showDropdown = s.showDropdown ∧
      (step lower (fetchDataStart s) .fetchFailure).isLoading = false ∧
      step lower s .fetchFailure = { s with isLoading := false } ∧
      (step lower (fetchDataStart s) (.fetchSuccess data pages)).isLoading = false ∧
      (step lower s (.fetchSuccess data pages)).isLoading = false :=
  ⟨rfl, rfl, rfl, rfl, rfl, rfl, rfl, rfl, rfl, rfl, rfl, rfl⟩

/-- The state after a resolved request and the `applyFilters` effect it
triggers: search text and filter options are unchanged, the entities are the
response's list, and the stored visible list is its filter. -/
theorem step_fetchSuccess_settled (lower : JSString → JSString) (s : State)
    (data : List Character) (pages : Int) :
    step lower s (.fetchSuccess data pages) =
        applyFiltersEffect lower (fetchDataSuccess data pages s) ∧
      (step lower s (.fetchSuccess data pages)).searchTerm = s.searchTerm ∧
      (step lower s (.fetchSuccess data pages)).filterOptions = s.filterOptions ∧
      (step lower s (.fetchSuccess data pages)).characters = data ∧
      (step lower s (.fetchSuccess data pages)).totalPages = pages ∧
      (step lower s (.fetchSuccess data pages)).filteredCharacters =
        applyFilters lower data s.searchTerm s.filterOptions :=
  ⟨rfl, rfl, rfl, rfl, rfl, rfl⟩

/-- The state `fetchData` commits when its request resolves (lines 32-38)
renders the response's list unfiltered, whatever the filter state is. -/
theorem gridShown_fetchDataSuccess (s : State) (data : List Character) (pages : Int) :
    gridShown (fetchDataSuccess data pages s) = some data ∧
      (fetchDataSuccess data pages s).searchTerm = s.searchTerm ∧
      (fetchDataSuccess data pages s).filterOptions = s.filterOptions :=
  ⟨rfl, rfl, rfl⟩

/-- C9 fails on the code. With the search text `rick` kept from the first
page, the response for page 2 holds Morty and Rick. The request leaves the
search text and the filter options unchanged and replaces the entities, but
the state `fetchData` commits (lines 32-38: `setFilteredCharacters(data)`,
loading flag cleared) renders both, the unfiltered list, where the filter of
the response is Rick alone; only the `applyFilters` effect that runs after
that render (lines 45-47) stores the filtered list. -/
theorem fetchDataSuccess_shows_unfiltered :
    searchingState.searchTerm = str "rick" ∧
      searchingState.currentPage = 2 ∧
      (fetchDataSuccess [morty, rick] 42 searchingState).searchTerm =
        searchingState.searchTerm ∧
      (fetchDataSuccess [morty, rick] 42 searchingState).filterOptions =
        searchingState.filterOptions ∧
      (fetchDataSuccess [morty, rick] 42 searchingState).characters = [morty, rick] ∧
      applyFilters asciiLower [morty, rick] searchingState.searchTerm
        searchingState.filterOptions = [rick] ∧
      gridShown (fetchDataSuccess [morty, rick] 42 searchingState) = some [morty, rick] ∧
      gridShown (fetchDataSuccess [morty, rick] 42 searchingState) ≠
        some (applyFilters asciiLower [morty, rick] searchingState.searchTerm
          searchingState.filterOptions) ∧
      gridShown (step asciiLower searchingState (.fetchSuccess [morty, rick] 42)) =
        some [rick] := by
  decide

/-! ## Scenarios of the specification -/

theorem scenario_A :
    applyFilters asciiLower [rick, morty] (str "rick") ⟨false, []⟩ = [rick] := by
  decide

theorem scenario_B :
    applyFilters asciiLower [rick, morty] [] ⟨true, []⟩ = [rick] := by
  decide

theorem scenario_C :
    applyFilters asciiLower [rick, morty] [] ⟨false, str "Human"⟩ = [rick, morty] := by
  decide

end CharacterShow
